import Mathlib

/-!
Verification of terraform-provider-hetzner-robot: client and server resource.

A shallow embedding of `internal/client/client.go`, `internal/client/server.go`
and `internal/provider/server_resource.go`.

* Go `error` values are represented by their message (`String`).
* The remote service is an oracle `Api`: every client operation receives the
  list of API calls issued so far in the cycle and answers with a result or an
  error.  Each reconciliation function returns the calls it issued, the
  diagnostics it collected and the state it saved (if any).
* `types.String` / `types.Bool` of the plugin framework are three-state
  values (null, unknown, known).
-/

namespace HetznerRobot

/-! ## internal/client/server.go : data -/

/-- Go struct `client.Server`. -/
structure Server where
  ID : String
  Name : String
  ServerIP : String
  ServerIPv6 : String
  Product : String
  Datacenter : String
  Status : String
  RescueOS : String
  Cancelled : Bool
  Paid : Bool
  Traffic : String
  Flatrate : Bool
  Distributed : Bool
deriving DecidableEq, Repr

/-- Go struct `client.ServerRescueOptions`. -/
structure ServerRescueOptions where
  OS : String
  SSHKeys : List String
deriving DecidableEq, Repr

/-! ## internal/client/client.go : `Client.Request` -/

/-- Constant `baseURL` of client.go. -/
def baseURL : String := "https://robot-ws.your-server.de"

/-- Go struct `client.Client` (the `HTTPClient` field is the `Do` function of `Runtime`). -/
structure Client where
  Username : String
  Password : String
deriving DecidableEq, Repr

/-- What `Request` puts into the `*http.Request` it sends. -/
structure HttpRequest where
  method : String
  url : String
  body : Option String
  basicAuth : Option (String × String)
  header : List (String × String)
deriving DecidableEq, Repr

/-- What `Request` reads from the `*http.Response`. -/
structure HttpResponse where
  StatusCode : Int
  Body : String
deriving DecidableEq, Repr

/-- Inner struct of `ErrorResponse`. -/
structure ErrorDetail where
  Code : String
  Message : String
deriving DecidableEq, Repr

/-- Go struct `client.ErrorResponse`. -/
structure ErrorResponse where
  Error : ErrorDetail
deriving DecidableEq, Repr

/-- The Go standard library functions `Request` calls, taken as parameters:
`json.Marshal`, `http.NewRequest`, `HTTPClient.Do` and
`json.NewDecoder(resp.Body).Decode(&errorResp)`. -/
structure Runtime (β : Type) where
  Marshal : β → Except String String
  NewRequest : String → String → Option String → Except String HttpRequest
  Do : HttpRequest → Except String HttpResponse
  DecodeError : String → Except String ErrorResponse

/-- Go `fmt.Sprintf("%d", n)` for an `int`. -/
def fmtD (n : Int) : String := toString n

/-- Lines 36-58 of `Client.Request`: marshal the body, build the request, set
the basic auth and the two headers, send it. -/
def Request_send {β : Type} (rt : Runtime β) (c : Client) (method path : String)
    (body : Option β) : Except String HttpResponse :=
  let requestBody : Except String (Option String) :=
    match body with
    | none => .ok none
    | some b =>
      match rt.Marshal b with
      | .error err => .error err
      | .ok jsonBody => .ok (some jsonBody)
  match requestBody with
  | .error err => .error err
  | .ok requestBody =>
    match rt.NewRequest method (baseURL ++ path) requestBody with
    | .error err => .error err
    | .ok req =>
      let req := { req with basicAuth := some (c.Username, c.Password) }
      let req := { req with header := req.header ++ [("Content-Type", "application/json")] }
      let req := { req with header := req.header ++ [("Accept", "application/json")] }
      rt.Do req

/-- Lines 61-75 of `Client.Request`: the status check, the error envelope and
the decoding of the result. -/
def Request_receive {β ρ : Type} (rt : Runtime β) (resp : HttpResponse)
    (result : Option (String → Except String ρ)) : Except String (Option ρ) :=
  if resp.StatusCode ≥ 400 then
    match rt.DecodeError resp.Body with
    | .error _ => .error ("HTTP error " ++ fmtD resp.StatusCode)
    | .ok errorResp =>
      .error ("HTTP error " ++ fmtD resp.StatusCode ++ ": " ++ errorResp.Error.Message)
  else
    match result with
    | none => .ok none
    | some decode =>
      match decode resp.Body with
      | .error err => .error err
      | .ok r => .ok (some r)

/-- Method `Client.Request` (client.go lines 35-76).  `result` is the decoder
for the shape the caller passed (`none` when the caller passed `nil`); the
returned option is the decoded result. -/
def Request {β ρ : Type} (rt : Runtime β) (c : Client) (method path : String)
    (body : Option β) (result : Option (String → Except String ρ)) :
    Except String (Option ρ) :=
  match Request_send rt c method path body with
  | .error err => .error err
  | .ok resp => Request_receive rt resp result

/-- Text `t` occurs inside text `s`. -/
def Contains (s t : String) : Prop := ∃ pre post : String, s = pre ++ t ++ post

/-! ## plugin framework values -/

/-- Framework type `types.String`: null, unknown or a known string. -/
inductive TfString where
  | null
  | unknown
  | known (v : String)
deriving DecidableEq, Repr

/-- Framework type `types.Bool`: null, unknown or a known boolean. -/
inductive TfBool where
  | null
  | unknown
  | known (v : Bool)
deriving DecidableEq, Repr

/-- Framework `types.StringValue`. -/
def StringValue (v : String) : TfString := .known v

/-- Framework `types.StringNull`. -/
def StringNull : TfString := .null

/-- Framework `types.BoolValue`. -/
def BoolValue (v : Bool) : TfBool := .known v

/-- Framework `StringValue.IsNull`. -/
def TfString.IsNull : TfString → Bool
  | .null => true
  | _ => false

/-- Framework `StringValue.ValueString`: the known value, `""` for null and unknown. -/
def TfString.ValueString : TfString → String
  | .known v => v
  | _ => ""

/-- Framework `StringValue.Equal`: same state and, when known, same value. -/
def TfString.Equal (a b : TfString) : Bool := decide (a = b)

/-- Framework `BoolValue.IsNull`. -/
def TfBool.IsNull : TfBool → Bool
  | .null => true
  | _ => false

/-- Framework `BoolValue.ValueBool`: the known value, `false` for null and unknown. -/
def TfBool.ValueBool : TfBool → Bool
  | .known v => v
  | _ => false

/-- Severity of a framework diagnostic. -/
inductive Severity where
  | Error
  | Warning
deriving DecidableEq, Repr

/-- Framework diagnostic: severity, summary and detail. -/
structure Diagnostic where
  severity : Severity
  summary : String
  detail : String
deriving DecidableEq, Repr

/-- Framework `Diagnostics.AddError`. -/
def AddError (ds : List Diagnostic) (summary detail : String) : List Diagnostic :=
  ds ++ [⟨.Error, summary, detail⟩]

/-- Framework `Diagnostics.HasError`. -/
def HasError (ds : List Diagnostic) : Bool :=
  ds.any (fun d => decide (d.severity = .Error))

/-! ## internal/provider/server_resource.go -/

/-- Go struct `provider.ServerResourceModel`. -/
structure ServerResourceModel where
  ID : TfString
  Name : TfString
  ServerIP : TfString
  ServerIPv6 : TfString
  Product : TfString
  Datacenter : TfString
  Status : TfString
  RescueOS : TfString
  Rescue : TfBool
deriving DecidableEq, Repr

/-- A plan or a prior state together with the outcome of reading it:
`Get(ctx, &data)` returns `diags` and fills `model`. -/
structure TfData where
  diags : List Diagnostic
  model : ServerResourceModel
deriving DecidableEq, Repr

/-- One call of a client operation of server.go, among those the resource uses. -/
inductive Call where
  | GetServer (id : String)
  | UpdateServer (id name : String)
  | EnableRescueMode (id : String) (options : ServerRescueOptions)
  | DisableRescueMode (id : String)
deriving DecidableEq, Repr

/-- The client seen from the provider: each operation of server.go used by the
resource, answering from the calls issued before it in the cycle. -/
structure Api where
  GetServer : List Call → String → Except String Server
  UpdateServer : List Call → String → String → Except String Server
  EnableRescueMode : List Call → String → ServerRescueOptions → Except String Unit
  DisableRescueMode : List Call → String → Except String Unit

/-- What a resource method leaves behind: the API calls it issued in order,
`resp.Diagnostics`, and the model passed to `resp.State.Set` (`none` when
`Set` was not reached). -/
structure Response where
  calls : List Call
  Diagnostics : List Diagnostic
  State : Option ServerResourceModel
deriving DecidableEq, Repr

/-- Lines 157-176 of `Create` and 195-212 of `Read`: copy the fetched server
into the model. -/
def syncModel (data : ServerResourceModel) (server : Server) : ServerResourceModel :=
  let data := { data with ID := StringValue server.ID }
  let data := { data with Name := StringValue server.Name }
  let data := { data with ServerIP := StringValue server.ServerIP }
  let data := { data with ServerIPv6 := StringValue server.ServerIPv6 }
  let data := { data with Product := StringValue server.Product }
  let data := { data with Datacenter := StringValue server.Datacenter }
  let data := { data with Status := StringValue server.Status }
  if server.RescueOS ≠ "" then
    let data := { data with RescueOS := StringValue server.RescueOS }
    { data with Rescue := BoolValue true }
  else
    { data with Rescue := BoolValue false }

/-- Lines 146-177 of `Create`: rescue handling, then the state is saved. -/
def Create_rescue (api : Api) (calls : List Call) (diags : List Diagnostic)
    (data : ServerResourceModel) (server : Server) : Response :=
  if !data.Rescue.IsNull && data.Rescue.ValueBool && !data.RescueOS.IsNull then
    match api.EnableRescueMode calls data.ID.ValueString ⟨data.RescueOS.ValueString, []⟩ with
    | .error err =>
      ⟨calls ++ [.EnableRescueMode data.ID.ValueString ⟨data.RescueOS.ValueString, []⟩],
        AddError diags "Client Error" ("Unable to enable rescue mode: " ++ err), none⟩
    | .ok _ =>
      ⟨calls ++ [.EnableRescueMode data.ID.ValueString ⟨data.RescueOS.ValueString, []⟩],
        diags, some (syncModel data server)⟩
  else
    ⟨calls, diags, some (syncModel data server)⟩

/-- Method `ServerResource.Create` (lines 119-177). -/
def Create (api : Api) (plan : TfData) : Response :=
  let data := plan.model
  let diags := plan.diags
  if HasError diags then ⟨[], diags, none⟩
  else
    match api.GetServer [] data.ID.ValueString with
    | .error err =>
      ⟨[.GetServer data.ID.ValueString],
        AddError diags "Client Error" ("Unable to read server: " ++ err), none⟩
    | .ok server =>
      if data.Name.ValueString ≠ server.Name then
        match api.UpdateServer [.GetServer data.ID.ValueString] data.ID.ValueString
            data.Name.ValueString with
        | .error err =>
          ⟨[.GetServer data.ID.ValueString,
              .UpdateServer data.ID.ValueString data.Name.ValueString],
            AddError diags "Client Error" ("Unable to update server name: " ++ err), none⟩
        | .ok server =>
          Create_rescue api
            [.GetServer data.ID.ValueString,
              .UpdateServer data.ID.ValueString data.Name.ValueString]
            diags data server
      else
        Create_rescue api [.GetServer data.ID.ValueString] diags data server

/-- Method `ServerResource.Read` (lines 179-213). -/
def Read (api : Api) (state : TfData) : Response :=
  let data := state.model
  let diags := state.diags
  if HasError diags then ⟨[], diags, none⟩
  else
    match api.GetServer [] data.ID.ValueString with
    | .error err =>
      ⟨[.GetServer data.ID.ValueString],
        AddError diags "Client Error" ("Unable to read server: " ++ err), none⟩
    | .ok server =>
      ⟨[.GetServer data.ID.ValueString], diags, some (syncModel data server)⟩

/-- Lines 300-315 of `Update`: fetch the server, fill the computed attributes, save. -/
def Update_sync (api : Api) (calls : List Call) (diags : List Diagnostic)
    (data : ServerResourceModel) : Response :=
  match api.GetServer calls data.ID.ValueString with
  | .error err =>
    ⟨calls ++ [.GetServer data.ID.ValueString],
      AddError diags "Client Error" ("Unable to read server: " ++ err), none⟩
  | .ok server =>
    let data := { data with ServerIP := StringValue server.ServerIP }
    let data := { data with ServerIPv6 := StringValue server.ServerIPv6 }
    let data := { data with Product := StringValue server.Product }
    let data := { data with Datacenter := StringValue server.Datacenter }
    let data := { data with Status := StringValue server.Status }
    ⟨calls ++ [.GetServer data.ID.ValueString], diags, some data⟩

/-- Lines 245-298 of `Update`: the rescue mode changes, then `Update_sync`. -/
def Update_rescue (api : Api) (calls : List Call) (diags : List Diagnostic)
    (data state : ServerResourceModel) : Response :=
  let rescueRequested := !data.Rescue.IsNull && data.Rescue.ValueBool
  let rescueCurrent := !state.Rescue.IsNull && state.Rescue.ValueBool
  if rescueRequested ≠ rescueCurrent then
    if rescueRequested then
      if data.RescueOS.IsNull then
        ⟨calls, AddError diags "Missing Parameter"
          "rescue_os must be specified when enabling rescue mode", none⟩
      else
        match api.EnableRescueMode calls data.ID.ValueString
            ⟨data.RescueOS.ValueString, []⟩ with
        | .error err =>
          ⟨calls ++ [.EnableRescueMode data.ID.ValueString ⟨data.RescueOS.ValueString, []⟩],
            AddError diags "Client Error" ("Unable to enable rescue mode: " ++ err), none⟩
        | .ok _ =>
          Update_sync api
            (calls ++ [.EnableRescueMode data.ID.ValueString ⟨data.RescueOS.ValueString, []⟩])
            diags { data with Rescue := BoolValue true }
    else
      match api.DisableRescueMode calls data.ID.ValueString with
      | .error err =>
        ⟨calls ++ [.DisableRescueMode data.ID.ValueString],
          AddError diags "Client Error" ("Unable to disable rescue mode: " ++ err), none⟩
      | .ok _ =>
        Update_sync api (calls ++ [.DisableRescueMode data.ID.ValueString]) diags
          { data with Rescue := BoolValue false, RescueOS := StringNull }
  else if rescueRequested && !data.RescueOS.Equal state.RescueOS then
    match api.DisableRescueMode calls data.ID.ValueString with
    | .error err =>
      ⟨calls ++ [.DisableRescueMode data.ID.ValueString],
        AddError diags "Client Error" ("Unable to disable rescue mode: " ++ err), none⟩
    | .ok _ =>
      match api.EnableRescueMode (calls ++ [.DisableRescueMode data.ID.ValueString])
          data.ID.ValueString ⟨data.RescueOS.ValueString, []⟩ with
      | .error err =>
        ⟨calls ++ [.DisableRescueMode data.ID.ValueString,
            .EnableRescueMode data.ID.ValueString ⟨data.RescueOS.ValueString, []⟩],
          AddError diags "Client Error" ("Unable to enable rescue mode: " ++ err), none⟩
      | .ok _ =>
        Update_sync api
          (calls ++ [.DisableRescueMode data.ID.ValueString,
            .EnableRescueMode data.ID.ValueString ⟨data.RescueOS.ValueString, []⟩])
          diags { data with Rescue := BoolValue true }
  else
    Update_sync api calls diags data

/-- Method `ServerResource.Update` (lines 215-316). -/
def Update (api : Api) (plan prior : TfData) : Response :=
  let data := plan.model
  let diags := plan.diags
  if HasError diags then ⟨[], diags, none⟩
  else
    let state := prior.model
    let diags := diags ++ prior.diags
    if HasError diags then ⟨[], diags, none⟩
    else
      if !data.Name.Equal state.Name then
        match api.UpdateServer [] data.ID.ValueString data.Name.ValueString with
        | .error err =>
          ⟨[.UpdateServer data.ID.ValueString data.Name.ValueString],
            AddError diags "Client Error" ("Unable to update server name: " ++ err), none⟩
        | .ok server =>
          Update_rescue api [.UpdateServer data.ID.ValueString data.Name.ValueString] diags
            { data with Name := StringValue server.Name } state
      else
        Update_rescue api [] diags data state

/-- Method `ServerResource.Delete` (lines 318-331). -/
def Delete (_api : Api) (prior : TfData) : Response :=
  let diags := prior.diags
  if HasError diags then ⟨[], diags, none⟩
  else ⟨[], diags, none⟩

/-! ## vocabulary of the statements -/

/-- The call changes the remote server (everything but `GetServer`). -/
def Call.isMutating : Call → Bool
  | .GetServer _ => false
  | .UpdateServer _ _ => true
  | .EnableRescueMode _ _ => true
  | .DisableRescueMode _ => true

/-- The call is `EnableRescueMode` or `DisableRescueMode`. -/
def Call.isRescue : Call → Bool
  | .EnableRescueMode _ _ => true
  | .DisableRescueMode _ => true
  | _ => false

/-- The call is `UpdateServer`. -/
def Call.isUpdateServer : Call → Bool
  | .UpdateServer _ _ => true
  | _ => false

/-- The call is `GetServer`. -/
def Call.isGetServer : Call → Bool
  | .GetServer _ => true
  | _ => false

/-- The operation of a call, without its arguments. -/
inductive CallKind where
  | GetServer
  | UpdateServer
  | EnableRescueMode
  | DisableRescueMode
deriving DecidableEq, Repr

/-- The operation a call invokes. -/
def Call.kind : Call → CallKind
  | .GetServer _ => .GetServer
  | .UpdateServer _ _ => .UpdateServer
  | .EnableRescueMode _ _ => .EnableRescueMode
  | .DisableRescueMode _ => .DisableRescueMode

/-- The server id the call is addressed to. -/
def Call.id : Call → String
  | .GetServer id => id
  | .UpdateServer id _ => id
  | .EnableRescueMode id _ => id
  | .DisableRescueMode id => id

/-- The test both `rescueRequested` and `rescueCurrent` of `Update` apply to a
rescue attribute: not null and true. -/
def rescueOn (r : TfBool) : Bool := !r.IsNull && r.ValueBool

/-- The rescue calls `Update` chooses for server `id`, as a table over the
requested and the current rescue state and the two rescue_os values: nothing
when neither is on; enable when only the requested one is on (nothing when the
desired OS is null); disable when only the current one is on; disable then
enable when both are on and the OS differs. -/
def rescueTransition (id : String) (requested current : Bool)
    (desiredOS currentOS : TfString) : List Call :=
  match requested, current with
  | false, false => []
  | true, false =>
    if desiredOS.IsNull then [] else [.EnableRescueMode id ⟨desiredOS.ValueString, []⟩]
  | true, true =>
    if desiredOS = currentOS then []
    else [.DisableRescueMode id, .EnableRescueMode id ⟨desiredOS.ValueString, []⟩]
  | false, true => [.DisableRescueMode id]

/-- The rescue calls of a trace, in order. -/
def rescueCalls (cs : List Call) : List Call := cs.filter Call.isRescue

/-- The mutating calls of a trace, in order. -/
def mutatingCalls (cs : List Call) : List Call := cs.filter Call.isMutating

/-- The `UpdateServer` calls of a trace, in order. -/
def updateCalls (cs : List Call) : List Call := cs.filter Call.isUpdateServer

/-- Whether the answer to `call`, issued after `history`, is an error. -/
def Api.fails (api : Api) (history : List Call) : Call → Bool
  | .GetServer id => !(api.GetServer history id).toBool
  | .UpdateServer id name => !(api.UpdateServer history id name).toBool
  | .EnableRescueMode id options => !(api.EnableRescueMode history id options).toBool
  | .DisableRescueMode id => !(api.DisableRescueMode history id).toBool

/-- No call of the trace fails except possibly its last one; `history` holds
the calls issued before the trace. -/
def onlyLastMayFail (api : Api) (history : List Call) : List Call → Bool
  | [] => true
  | c :: rest =>
    (rest.isEmpty || !api.fails history c) && onlyLastMayFail api (history ++ [c]) rest

/-- Some call of the trace fails; `history` holds the calls issued before the trace. -/
def someCallFails (api : Api) (history : List Call) : List Call → Bool
  | [] => false
  | c :: rest => api.fails history c || someCallFails api (history ++ [c]) rest

/-- Every API call succeeds, whatever was called before. -/
def Api.Succeeds (api : Api) : Prop :=
  ∀ (history : List Call) (c : Call), api.fails history c = false

/-- A server with id "123" and the given name and rescue OS. -/
def sampleServer (name rescueOS : String) : Server :=
  { ID := "123", Name := name, ServerIP := "203.0.113.7", ServerIPv6 := "2001:db8::7",
    Product := "EX44", Datacenter := "FSN1-DC1", Status := "ready", RescueOS := rescueOS,
    Cancelled := false, Paid := true, Traffic := "unlimited", Flatrate := true,
    Distributed := false }

/-- A model for server "123" with the given name, rescue_os and rescue; the
computed attributes are unknown. -/
def sampleModel (name rescueOS : TfString) (rescue : TfBool) : ServerResourceModel :=
  { ID := .known "123", Name := name, ServerIP := .unknown, ServerIPv6 := .unknown,
    Product := .unknown, Datacenter := .unknown, Status := .unknown,
    RescueOS := rescueOS, Rescue := rescue }

/-- A service on which every call succeeds: `GetServer` answers `current`,
`UpdateServer` answers `current` renamed by `rename` of the requested name. -/
def stubApi (current : Server) (rename : String → String) : Api :=
  { GetServer := fun _ _ => .ok current
    UpdateServer := fun _ _ name => .ok { current with Name := rename name }
    EnableRescueMode := fun _ _ _ => .ok ()
    DisableRescueMode := fun _ _ => .ok () }

/-- A service on which `GetServer` answers `current`, `UpdateServer` and
`DisableRescueMode` succeed and `EnableRescueMode` fails. -/
def enableFailsApi (current : Server) : Api :=
  { GetServer := fun _ _ => .ok current
    UpdateServer := fun _ _ name => .ok { current with Name := name }
    EnableRescueMode := fun _ _ _ => .error "HTTP error 500"
    DisableRescueMode := fun _ _ => .ok () }

/-- A runtime whose transport answers every request with `resp` and whose
error decoder knows one body, `errorBody`, which it decodes to `decoded`. -/
def stubRuntime (resp : HttpResponse) (errorBody : String) (decoded : ErrorResponse) :
    Runtime Unit :=
  { Marshal := fun _ => .ok "null"
    NewRequest := fun method url body => .ok ⟨method, url, body, none, []⟩
    Do := fun _ => .ok resp
    DecodeError := fun b => if b = errorBody then .ok decoded else .error "invalid character" }

/-- The error body of the 404 scenario. -/
def notFoundBody : String :=
  "\x7b\"error\":\x7b\"code\":\"NOT_FOUND\",\"message\":\"server not found\"\x7d\x7d"

/-! ## lemmas on the building blocks -/

theorem stubApi_succeeds (current : Server) (rename : String → String) :
    (stubApi current rename).Succeeds := by
  intro h c
  cases c <;> rfl

theorem Update_sync_calls (api : Api) (calls : List Call) (diags : List Diagnostic)
    (data : ServerResourceModel) :
    (Update_sync api calls diags data).calls = calls ++ [.GetServer data.ID.ValueString] := by
  unfold Update_sync
  split <;> rfl

theorem fails_false_getServer {api : Api} (h : api.Succeeds) (hist : List Call) (id : String) :
    ∃ s, api.GetServer hist id = .ok s := by
  have := h hist (.GetServer id)
  simp only [Api.fails] at this
  cases hg : api.GetServer hist id with
  | error e => simp [hg, Except.toBool] at this
  | ok s => exact ⟨s, rfl⟩

theorem fails_false_updateServer {api : Api} (h : api.Succeeds) (hist : List Call)
    (id name : String) : ∃ s, api.UpdateServer hist id name = .ok s := by
  have := h hist (.UpdateServer id name)
  simp only [Api.fails] at this
  cases hg : api.UpdateServer hist id name with
  | error e => simp [hg, Except.toBool] at this
  | ok s => exact ⟨s, rfl⟩

theorem fails_false_enable {api : Api} (h : api.Succeeds) (hist : List Call)
    (id : String) (o : ServerRescueOptions) : api.EnableRescueMode hist id o = .ok () := by
  have := h hist (.EnableRescueMode id o)
  simp only [Api.fails] at this
  cases hg : api.EnableRescueMode hist id o with
  | error e => simp [hg, Except.toBool] at this
  | ok s => rfl

theorem fails_false_disable {api : Api} (h : api.Succeeds) (hist : List Call)
    (id : String) : api.DisableRescueMode hist id = .ok () := by
  have := h hist (.DisableRescueMode id)
  simp only [Api.fails] at this
  cases hg : api.DisableRescueMode hist id with
  | error e => simp [hg, Except.toBool] at this
  | ok s => rfl

/-- With rescue requested, rescue enabled in the prior state and a different
rescue_os, `Update_rescue` on a succeeding service issues `DisableRescueMode`,
`EnableRescueMode` and then `GetServer`. -/
theorem Update_rescue_os_change (api : Api) (calls : List Call) (diags : List Diagnostic)
    (data state : ServerResourceModel)
    (hreq : data.Rescue = .known true) (hcur : state.Rescue = .known true)
    (hos : data.RescueOS ≠ state.RescueOS) (hok : api.Succeeds) :
    (Update_rescue api calls diags data state).calls =
      calls ++ [.DisableRescueMode data.ID.ValueString,
        .EnableRescueMode data.ID.ValueString ⟨data.RescueOS.ValueString, []⟩,
        .GetServer data.ID.ValueString] := by
  unfold Update_rescue
  simp [hreq, hcur, TfBool.IsNull, TfBool.ValueBool, TfString.Equal, hos,
    fails_false_disable hok, fails_false_enable hok, Update_sync_calls]

/-- C1. OS-change transition in Update: when the plan requests rescue, the
prior state has rescue enabled with a different rescue_os and every API call
succeeds, the rescue calls of the cycle are exactly DisableRescueMode(id)
followed by EnableRescueMode(id, planned rescue_os). -/
theorem C1_os_change_disable_then_enable (api : Api) (plan prior : TfData)
    (hplan : HasError plan.diags = false) (hprior : HasError prior.diags = false)
    (hreq : plan.model.Rescue = .known true) (hcur : prior.model.Rescue = .known true)
    (hos : plan.model.RescueOS ≠ prior.model.RescueOS) (hok : api.Succeeds) :
    rescueCalls (Update api plan prior).calls =
      [.DisableRescueMode plan.model.ID.ValueString,
        .EnableRescueMode plan.model.ID.ValueString ⟨plan.model.RescueOS.ValueString, []⟩] := by
  have hd : HasError (plan.diags ++ prior.diags) = false := by
    simp only [HasError, List.any_append, Bool.or_eq_false_iff] at *
    exact ⟨hplan, hprior⟩
  unfold Update
  simp only [hplan, hd, Bool.false_eq_true, if_false]
  split
  · obtain ⟨s, hs⟩ := fails_false_updateServer hok [] plan.model.ID.ValueString
      plan.model.Name.ValueString
    simp only [hs]
    rw [Update_rescue_os_change api _ _ { plan.model with Name := StringValue s.Name } _
      hreq hcur hos hok]
    simp [rescueCalls, Call.isRescue]
  · rw [Update_rescue_os_change api _ _ _ _ hreq hcur hos hok]
    simp [rescueCalls, Call.isRescue]

/-- C1 at a concrete cycle: plan rescue_os "freebsd64", prior rescue_os
"linux64", both with rescue = true, on a service whose calls all succeed. -/
theorem C1_os_change_witness :
    rescueCalls (Update (stubApi (sampleServer "web-1" "linux64") id)
        ⟨[], sampleModel (.known "web-1") (.known "freebsd64") (.known true)⟩
        ⟨[], sampleModel (.known "web-1") (.known "linux64") (.known true)⟩).calls =
      [.DisableRescueMode "123", .EnableRescueMode "123" ⟨"freebsd64", []⟩] :=
  C1_os_change_disable_then_enable (stubApi (sampleServer "web-1" "linux64") id)
    ⟨[], sampleModel (.known "web-1") (.known "freebsd64") (.known true)⟩
    ⟨[], sampleModel (.known "web-1") (.known "linux64") (.known true)⟩
    rfl rfl rfl rfl (by decide) (stubApi_succeeds _ _)

theorem contains_suffix (a b : String) : Contains (a ++ b) b :=
  ⟨a, "", by simp⟩

/-- C4. Error decoding in Client.Request: when the response has status >= 400
the call returns an error whatever result decoder the caller passed; when the
body decodes as the error envelope the text is "HTTP error <status>: <message>"
and contains the decoded message; when it does not decode the text is
"HTTP error <status>" and contains the decimal status code. -/
theorem C4_request_error_decoding {β ρ : Type} (rt : Runtime β) (c : Client)
    (method path : String) (body : Option β) (result : Option (String → Except String ρ))
    (resp : HttpResponse) (hsend : Request_send rt c method path body = .ok resp)
    (hstatus : resp.StatusCode ≥ 400) :
    ∃ text : String,
      Request rt c method path body result = .error text ∧
      (∀ result2 : Option (String → Except String ρ),
        Request rt c method path body result2 = .error text) ∧
      (∀ er, rt.DecodeError resp.Body = .ok er →
        text = "HTTP error " ++ fmtD resp.StatusCode ++ ": " ++ er.Error.Message ∧
        Contains text er.Error.Message) ∧
      (∀ e, rt.DecodeError resp.Body = .error e →
        text = "HTTP error " ++ fmtD resp.StatusCode ∧
        Contains text (fmtD resp.StatusCode)) := by
  unfold Request
  simp only [hsend, Request_receive, hstatus, if_true]
  cases hd : rt.DecodeError resp.Body with
  | error e =>
    refine ⟨_, rfl, fun _ => rfl, ?_, ?_⟩
    · intro er h; cases h
    · intro e2 _; exact ⟨rfl, contains_suffix _ _⟩
  | ok er =>
    refine ⟨_, rfl, fun _ => rfl, ?_, ?_⟩
    · intro er2 h
      cases h
      exact ⟨rfl, contains_suffix _ _⟩
    · intro e h; cases h

/-- C4 at the two scenarios: status 404 with the NOT_FOUND envelope, and
status 500 with a body that does not decode. -/
theorem C4_request_error_decoding_witness :
    (Request (ρ := Server)
        (stubRuntime ⟨404, notFoundBody⟩ notFoundBody ⟨⟨"NOT_FOUND", "server not found"⟩⟩)
        ⟨"user", "secret"⟩ "GET" "/server/123" none none
      = .error "HTTP error 404: server not found" ∧
      Contains "HTTP error 404: server not found" "server not found") ∧
    (Request (ρ := Server)
        (stubRuntime ⟨500, "<html>oops"⟩ notFoundBody ⟨⟨"NOT_FOUND", "server not found"⟩⟩)
        ⟨"user", "secret"⟩ "GET" "/server/123" none none
      = .error "HTTP error 500" ∧
      Contains "HTTP error 500" "500") := by
  constructor
  · obtain ⟨text, h1, _, h3, _⟩ := C4_request_error_decoding (ρ := Server)
      (stubRuntime ⟨404, notFoundBody⟩ notFoundBody ⟨⟨"NOT_FOUND", "server not found"⟩⟩)
      ⟨"user", "secret"⟩ "GET" "/server/123" none none ⟨404, notFoundBody⟩ rfl (by decide)
    obtain ⟨h5, h6⟩ := h3 ⟨⟨"NOT_FOUND", "server not found"⟩⟩ rfl
    have h7 : text = "HTTP error 404: server not found" := by rw [h5]; decide
    subst h7
    exact ⟨h1, h6⟩
  · obtain ⟨text, h1, _, _, h4⟩ := C4_request_error_decoding (ρ := Server)
      (stubRuntime ⟨500, "<html>oops"⟩ notFoundBody ⟨⟨"NOT_FOUND", "server not found"⟩⟩)
      ⟨"user", "secret"⟩ "GET" "/server/123" none none ⟨500, "<html>oops"⟩ rfl (by decide)
    obtain ⟨h5, h6⟩ := h4 "invalid character" rfl
    have h7 : text = "HTTP error 500" := by rw [h5]; decide
    subst h7
    exact ⟨h1, h6⟩

/-- C9. Drop management: Delete issues no API call and saves nothing, for
every service and every prior state; its diagnostics are exactly those of
reading the prior state, so it reports an error only when that read does. -/
theorem C9_delete_no_api_call (api : Api) (prior : TfData) :
    (Delete api prior).calls = [] ∧
    (Delete api prior).State = none ∧
    (Delete api prior).Diagnostics = prior.diags ∧
    (HasError (Delete api prior).Diagnostics = true ↔ HasError prior.diags = true) := by
  by_cases h : HasError prior.diags = true <;> simp [Delete, h]

/-- The state saved by `syncModel` has rescue = true exactly when the fetched
server has a non-empty `RescueOS`, and then rescue_os is that value. -/
theorem syncModel_rescue (data : ServerResourceModel) (server : Server) :
    ((syncModel data server).Rescue = .known true ↔ server.RescueOS ≠ "") ∧
    ((syncModel data server).Rescue = .known true →
      (syncModel data server).RescueOS = .known server.RescueOS) ∧
    (server.RescueOS = "" → (syncModel data server).RescueOS = data.RescueOS) := by
  unfold syncModel
  split <;> simp_all [BoolValue, StringValue]

/-- C5. Evaluation at the failing inputs: Read of a prior state with
rescue_os "linux64" against a server whose RescueOS is empty, and Create of a
plan with rescue = true and rescue_os "linux64" against such a server, both
succeed and save rescue = false together with rescue_os "linux64". -/
theorem C5_rescue_false_with_rescue_os :
    ((Read (stubApi (sampleServer "web-1" "") id)
        ⟨[], sampleModel (.known "web-1") (.known "linux64") (.known true)⟩).State.map
      (fun m => (m.Rescue, m.RescueOS)) = some (.known false, .known "linux64")) ∧
    ((Create (stubApi (sampleServer "web-1" "") id)
        ⟨[], sampleModel (.known "web-1") (.known "linux64") (.known true)⟩).State.map
      (fun m => (m.Rescue, m.RescueOS)) = some (.known false, .known "linux64")) ∧
    (Create (stubApi (sampleServer "web-1" "") id)
        ⟨[], sampleModel (.known "web-1") (.known "linux64") (.known true)⟩).calls =
      [.GetServer "123", .EnableRescueMode "123" ⟨"linux64", []⟩] := by
  refine ⟨by decide, by decide, by decide⟩

theorem onlyLastMayFail_split (api : Api) :
    ∀ (calls history pre : List Call) (c : Call) (post : List Call),
      onlyLastMayFail api history calls = true → calls = pre ++ c :: post →
      api.fails (history ++ pre) c = true → post = [] := by
  intro calls
  induction calls with
  | nil => intro history pre c post _ h; simp at h
  | cons a rest ih =>
    intro history pre c post haud hsplit hfail
    simp only [onlyLastMayFail, Bool.and_eq_true, Bool.or_eq_true, List.isEmpty_iff,
      Bool.not_eq_true'] at haud
    cases pre with
    | nil =>
      simp only [List.nil_append, List.cons.injEq] at hsplit
      obtain ⟨rfl, rfl⟩ := hsplit
      simp only [List.append_nil] at hfail
      rcases haud.1 with h | h
      · exact h
      · rw [hfail] at h; cases h
    | cons b pre2 =>
      simp only [List.cons_append, List.cons.injEq] at hsplit
      obtain ⟨rfl, rfl⟩ := hsplit
      exact ih (history ++ [a]) pre2 c post haud.2 rfl (by simpa using hfail)

theorem someCallFails_split (api : Api) :
    ∀ (calls history pre : List Call) (c : Call) (post : List Call),
      calls = pre ++ c :: post → api.fails (history ++ pre) c = true →
      someCallFails api history calls = true := by
  intro calls
  induction calls with
  | nil => intro history pre c post h; simp at h
  | cons a rest ih =>
    intro history pre c post hsplit hfail
    cases pre with
    | nil =>
      simp only [List.nil_append, List.cons.injEq] at hsplit
      obtain ⟨rfl, rfl⟩ := hsplit
      simp only [List.append_nil] at hfail
      simp [someCallFails, hfail]
    | cons b pre2 =>
      simp only [List.cons_append, List.cons.injEq] at hsplit
      obtain ⟨rfl, rfl⟩ := hsplit
      have := ih (history ++ [a]) pre2 c post rfl (by simpa using hfail)
      simp [someCallFails, this]

/-- From the two trace checks to the statement on an arbitrary split of the trace. -/
theorem stops_of_checks (api : Api) (r : Response)
    (h1 : onlyLastMayFail api [] r.calls = true)
    (h2 : someCallFails api [] r.calls = true →
      HasError r.Diagnostics = true ∧ r.State = none) :
    ∀ (pre : List Call) (c : Call) (post : List Call), r.calls = pre ++ c :: post →
      api.fails pre c = true →
      post = [] ∧ HasError r.Diagnostics = true ∧ r.State = none := by
  intro pre c post hs hf
  exact ⟨onlyLastMayFail_split api _ [] pre c post h1 hs (by simpa using hf),
    h2 (someCallFails_split api _ [] pre c post hs (by simpa using hf))⟩

theorem HasError_AddError (ds : List Diagnostic) (a b : String) :
    HasError (AddError ds a b) = true := by
  simp [HasError, AddError]

theorem Update_checks (api : Api) (plan prior : TfData) :
    onlyLastMayFail api [] (Update api plan prior).calls = true ∧
    (someCallFails api [] (Update api plan prior).calls = true →
      HasError (Update api plan prior).Diagnostics = true ∧
      (Update api plan prior).State = none) := by
  unfold Update Update_rescue Update_sync
  simp only []
  split
  · simp [onlyLastMayFail, someCallFails]
  split
  · simp [onlyLastMayFail, someCallFails]
  repeat' split
  all_goals simp_all [onlyLastMayFail, someCallFails, Api.fails, Except.toBool,
    HasError_AddError]

theorem Create_checks (api : Api) (plan : TfData) :
    onlyLastMayFail api [] (Create api plan).calls = true ∧
    (someCallFails api [] (Create api plan).calls = true →
      HasError (Create api plan).Diagnostics = true ∧
      (Create api plan).State = none) := by
  unfold Create Create_rescue
  simp only []
  split
  · simp [onlyLastMayFail, someCallFails]
  repeat' split
  all_goals simp_all [onlyLastMayFail, someCallFails, Api.fails, Except.toBool,
    HasError_AddError]

/-- C6. Stop at first failure: in every Create and every Update cycle, for
every service, whenever a call of the cycle returns an error (the trace splits
as pre, c, post and the answer to c after pre is an error), no call follows it
(post is empty), the cycle reports an error and no state is saved. -/
theorem C6_stop_at_first_failure (api : Api) (plan prior : TfData) :
    (∀ (pre : List Call) (c : Call) (post : List Call),
      (Create api plan).calls = pre ++ c :: post → api.fails pre c = true →
      post = [] ∧ HasError (Create api plan).Diagnostics = true ∧
        (Create api plan).State = none) ∧
    (∀ (pre : List Call) (c : Call) (post : List Call),
      (Update api plan prior).calls = pre ++ c :: post → api.fails pre c = true →
      post = [] ∧ HasError (Update api plan prior).Diagnostics = true ∧
        (Update api plan prior).State = none) :=
  ⟨stops_of_checks api _ (Create_checks api plan).1 (Create_checks api plan).2,
    stops_of_checks api _ (Update_checks api plan prior).1 (Update_checks api plan prior).2⟩

/-- C6 at a concrete cycle: the OS change on a service whose DisableRescueMode
succeeds and whose EnableRescueMode fails issues exactly these two calls (no
compensating call), reports an error and saves nothing. -/
theorem C6_stop_at_first_failure_witness :
    ((Update (enableFailsApi (sampleServer "web-1" "linux64"))
        ⟨[], sampleModel (.known "web-1") (.known "freebsd64") (.known true)⟩
        ⟨[], sampleModel (.known "web-1") (.known "linux64") (.known true)⟩).calls =
      [.DisableRescueMode "123", .EnableRescueMode "123" ⟨"freebsd64", []⟩]) ∧
    HasError (Update (enableFailsApi (sampleServer "web-1" "linux64"))
        ⟨[], sampleModel (.known "web-1") (.known "freebsd64") (.known true)⟩
        ⟨[], sampleModel (.known "web-1") (.known "linux64") (.known true)⟩).Diagnostics = true ∧
    (Update (enableFailsApi (sampleServer "web-1" "linux64"))
        ⟨[], sampleModel (.known "web-1") (.known "freebsd64") (.known true)⟩
        ⟨[], sampleModel (.known "web-1") (.known "linux64") (.known true)⟩).State = none :=
  ⟨by decide,
    ((C6_stop_at_first_failure (enableFailsApi (sampleServer "web-1" "linux64"))
      ⟨[], sampleModel (.known "web-1") (.known "freebsd64") (.known true)⟩
      ⟨[], sampleModel (.known "web-1") (.known "linux64") (.known true)⟩).2
      [.DisableRescueMode "123"] (.EnableRescueMode "123" ⟨"freebsd64", []⟩) []
      (by decide) (by decide)).2⟩

theorem Update_calls_cases (api : Api) (plan prior : TfData) :
    ∃ a ∈ [[], [Call.UpdateServer plan.model.ID.ValueString plan.model.Name.ValueString]],
    ∃ b ∈ [[], [Call.EnableRescueMode plan.model.ID.ValueString
              ⟨plan.model.RescueOS.ValueString, []⟩],
            [Call.DisableRescueMode plan.model.ID.ValueString],
            [Call.DisableRescueMode plan.model.ID.ValueString,
              Call.EnableRescueMode plan.model.ID.ValueString
                ⟨plan.model.RescueOS.ValueString, []⟩]],
    ∃ c ∈ [[], [Call.GetServer plan.model.ID.ValueString]],
      (Update api plan prior).calls = a ++ b ++ c := by
  generalize hr : Update api plan prior = r
  unfold Update Update_rescue Update_sync at hr
  simp only [] at hr
  split at hr
  · subst hr; simp
  split at hr
  · subst hr; simp
  repeat' split at hr
  all_goals subst hr; simp

theorem getServer_is_last (calls pre post : List Call) (id : String)
    (h : calls.dropLast.all (fun c => !c.isGetServer) = true)
    (hs : calls = pre ++ Call.GetServer id :: post) : post = [] := by
  by_contra hne
  subst hs
  rw [List.dropLast_append_cons, List.dropLast_cons_of_ne_nil hne] at h
  simp [Call.isGetServer] at h

theorem Update_shape (api : Api) (plan prior : TfData) :
    List.Sublist ((Update api plan prior).calls.map Call.kind)
      [.UpdateServer, .DisableRescueMode, .EnableRescueMode, .GetServer] ∧
    (∀ c ∈ (Update api plan prior).calls, c.id = plan.model.ID.ValueString) ∧
    (Update api plan prior).calls.dropLast.all (fun c => !c.isGetServer) = true := by
  obtain ⟨a, ha, b, hb, c, hc, h⟩ := Update_calls_cases api plan prior
  simp only [List.mem_cons, List.mem_singleton, List.not_mem_nil, or_false] at ha hb hc
  rw [h]
  rcases ha with rfl | rfl <;> rcases hb with rfl | rfl | rfl | rfl <;>
    rcases hc with rfl | rfl <;>
    refine ⟨by simp only [List.map_cons, List.map_nil, List.map_append, List.cons_append,
      List.nil_append, List.append_nil, Call.kind]; decide, by simp [Call.id],
      by simp [Call.isGetServer]⟩

/-- C10. Call-trace shape of Update: for every service, plan and prior state,
the operations of the calls issued by one Update cycle form a subsequence of
UpdateServer, DisableRescueMode, EnableRescueMode, GetServer (so each occurs
at most once and there are at most 4 calls), every call uses the planned id,
and a GetServer call is the last call of the cycle, issued only after every
call before it succeeded. -/
theorem C10_update_call_trace_shape (api : Api) (plan prior : TfData) :
    List.Sublist ((Update api plan prior).calls.map Call.kind)
      [.UpdateServer, .DisableRescueMode, .EnableRescueMode, .GetServer] ∧
    ((Update api plan prior).calls.map Call.kind).Nodup ∧
    (Update api plan prior).calls.length ≤ 4 ∧
    (∀ c ∈ (Update api plan prior).calls, c.id = plan.model.ID.ValueString) ∧
    (∀ (pre : List Call) (id : String) (post : List Call),
      (Update api plan prior).calls = pre ++ Call.GetServer id :: post →
      post = [] ∧
      ∀ (p : List Call) (c : Call) (q : List Call), pre = p ++ c :: q →
        api.fails p c = false) := by
  obtain ⟨hsub, hid, hlast⟩ := Update_shape api plan prior
  refine ⟨hsub, List.Nodup.sublist hsub (by decide), ?_, hid, ?_⟩
  · have := hsub.length_le
    simpa using this
  · intro pre id post hs
    refine ⟨getServer_is_last _ pre post id hlast hs, ?_⟩
    intro p c q hp
    by_contra hf
    have hf2 : api.fails p c = true := by simpa using hf
    have := onlyLastMayFail_split api _ [] p c (q ++ Call.GetServer id :: post)
      (Update_checks api plan prior).1 (by rw [hs, hp]; simp) (by simpa using hf2)
    simp at this

theorem rescueOn_eq_true (r : TfBool) : rescueOn r = true ↔ r = .known true := by
  cases r with
  | null => simp [rescueOn, TfBool.IsNull, TfBool.ValueBool]
  | unknown => simp [rescueOn, TfBool.IsNull, TfBool.ValueBool]
  | known v => cases v <;> simp [rescueOn, TfBool.IsNull, TfBool.ValueBool]

theorem HasError_append (a b : List Diagnostic) :
    HasError (a ++ b) = (HasError a || HasError b) := by
  simp [HasError]

/-- C2, counterexample. With rescue = true and a null rescue_os: Create issues
GetServer and succeeds; Update issues UpdateServer before it reaches the
guard; Update on a prior state with rescue enabled issues DisableRescueMode,
EnableRescueMode with an empty OS and GetServer, and succeeds. -/
theorem C2_missing_os_counterexample :
    ((Create (stubApi (sampleServer "web-1" "") id)
        ⟨[], sampleModel (.known "web-1") .null (.known true)⟩).calls = [.GetServer "123"] ∧
      HasError (Create (stubApi (sampleServer "web-1" "") id)
        ⟨[], sampleModel (.known "web-1") .null (.known true)⟩).Diagnostics = false) ∧
    ((Update (stubApi (sampleServer "old-name" "") id)
        ⟨[], sampleModel (.known "web-1") .null (.known true)⟩
        ⟨[], sampleModel (.known "old-name") .null (.known false)⟩).calls =
      [.UpdateServer "123" "web-1"]) ∧
    ((Update (stubApi (sampleServer "web-1" "linux64") id)
        ⟨[], sampleModel (.known "web-1") .null (.known true)⟩
        ⟨[], sampleModel (.known "web-1") (.known "linux64") (.known true)⟩).calls =
      [.DisableRescueMode "123", .EnableRescueMode "123" ⟨"", []⟩, .GetServer "123"] ∧
      HasError (Update (stubApi (sampleServer "web-1" "linux64") id)
        ⟨[], sampleModel (.known "web-1") .null (.known true)⟩
        ⟨[], sampleModel (.known "web-1") (.known "linux64") (.known true)⟩).Diagnostics
        = false) := by
  refine ⟨⟨by decide, by decide⟩, by decide, by decide, by decide⟩

theorem Update_rescue_missing_os (api : Api) (calls : List Call) (diags : List Diagnostic)
    (data state : ServerResourceModel) (hreq : data.Rescue = .known true)
    (hos : data.RescueOS = .null) (hcur : state.Rescue ≠ .known true) :
    Update_rescue api calls diags data state =
      ⟨calls, AddError diags "Missing Parameter"
        "rescue_os must be specified when enabling rescue mode", none⟩ := by
  have hcur2 : rescueOn state.Rescue = false := by
    rw [← Bool.not_eq_true, rescueOn_eq_true]; exact hcur
  have hreq2 : rescueOn data.Rescue = true := (rescueOn_eq_true _).2 hreq
  simp only [rescueOn] at hcur2 hreq2
  unfold Update_rescue
  simp only [hcur2, hreq2, hos, TfString.IsNull]
  simp

/-- C2, amended. With rescue = true and a null rescue_os in the plan: an Update
whose prior state does not have rescue enabled issues no call except the
UpdateServer of the name step (issued exactly when the planned name differs
from the prior name), reports an error and saves no state, and the error is
"Missing Parameter" when the name step did not fail; a Create issues no rescue
call. -/
theorem C2_missing_os_amended (api : Api) (plan prior : TfData)
    (hplan : HasError plan.diags = false) (hprior : HasError prior.diags = false)
    (hreq : plan.model.Rescue = .known true) (hos : plan.model.RescueOS = .null) :
    (prior.model.Rescue ≠ .known true →
      (Update api plan prior).calls =
        (if plan.model.Name = prior.model.Name then []
          else [.UpdateServer plan.model.ID.ValueString plan.model.Name.ValueString]) ∧
      HasError (Update api plan prior).Diagnostics = true ∧
      (Update api plan prior).State = none ∧
      ((plan.model.Name = prior.model.Name ∨
          api.fails [] (.UpdateServer plan.model.ID.ValueString
            plan.model.Name.ValueString) = false) →
        (Update api plan prior).Diagnostics =
          AddError (plan.diags ++ prior.diags) "Missing Parameter"
            "rescue_os must be specified when enabling rescue mode")) ∧
    rescueCalls (Create api plan).calls = [] := by
  have hd : HasError (plan.diags ++ prior.diags) = false := by
    rw [HasError_append, hplan, hprior]; rfl
  constructor
  · intro hcur
    unfold Update
    simp only [hplan, hd, Bool.false_eq_true, if_false]
    by_cases hn : plan.model.Name = prior.model.Name
    · simp only [TfString.Equal, hn, decide_True, Bool.not_true, Bool.false_eq_true, if_false,
        if_true]
      rw [Update_rescue_missing_os api _ _ _ _ hreq hos hcur]
      simp [HasError_AddError]
    · simp only [TfString.Equal, hn, decide_False, Bool.not_false, if_true, if_false]
      cases hu : api.UpdateServer [] plan.model.ID.ValueString plan.model.Name.ValueString with
      | error e =>
        simp [HasError_AddError, Api.fails, hu, Except.toBool]
      | ok sv =>
        simp only []
        rw [Update_rescue_missing_os api _ _ { plan.model with Name := StringValue sv.Name } _
          hreq hos hcur]
        simp [HasError_AddError]
  · generalize hr : Create api plan = r
    unfold Create Create_rescue at hr
    simp only [hplan, hos, TfString.IsNull, Bool.false_eq_true, if_false, Bool.not_true,
      Bool.and_false] at hr
    repeat' split at hr
    all_goals subst hr; simp [rescueCalls, Call.isRescue]

/-- C2, amended, at a concrete cycle: rescue = true with a null rescue_os, the
prior state without rescue and with another name. -/
theorem C2_missing_os_amended_witness :
    (Update (stubApi (sampleServer "old-name" "") id)
        ⟨[], sampleModel (.known "web-1") .null (.known true)⟩
        ⟨[], sampleModel (.known "old-name") .null (.known false)⟩).calls =
      [.UpdateServer "123" "web-1"] ∧
    (Update (stubApi (sampleServer "old-name" "") id)
        ⟨[], sampleModel (.known "web-1") .null (.known true)⟩
        ⟨[], sampleModel (.known "old-name") .null (.known false)⟩).Diagnostics =
      [⟨.Error, "Missing Parameter", "rescue_os must be specified when enabling rescue mode"⟩] ∧
    (Update (stubApi (sampleServer "old-name" "") id)
        ⟨[], sampleModel (.known "web-1") .null (.known true)⟩
        ⟨[], sampleModel (.known "old-name") .null (.known false)⟩).State = none ∧
    rescueCalls (Create (stubApi (sampleServer "old-name" "") id)
        ⟨[], sampleModel (.known "web-1") .null (.known true)⟩).calls = [] := by
  have h := C2_missing_os_amended (stubApi (sampleServer "old-name" "") id)
    ⟨[], sampleModel (.known "web-1") .null (.known true)⟩
    ⟨[], sampleModel (.known "old-name") .null (.known false)⟩ rfl rfl rfl rfl
  have h1 := h.1 (by decide)
  exact ⟨h1.1, h1.2.2.2 (Or.inr rfl), h1.2.2.1, h.2⟩

/-- An Update that changes neither the name nor the rescue attributes issues
no mutating call. -/
theorem Update_no_change (api : Api) (plan prior : TfData)
    (hn : plan.model.Name = prior.model.Name)
    (hr : rescueOn plan.model.Rescue = rescueOn prior.model.Rescue)
    (ho : rescueOn plan.model.Rescue = true → plan.model.RescueOS = prior.model.RescueOS) :
    mutatingCalls (Update api plan prior).calls = [] := by
  simp only [rescueOn] at hr ho
  generalize hres : Update api plan prior = r
  unfold Update Update_rescue at hres
  simp only [TfString.Equal, hn, hr, decide_True, Bool.not_true, Bool.false_eq_true, if_false,
    ne_eq, not_true_eq_false] at hres
  split at hres
  · subst hres; rfl
  split at hres
  · subst hres; rfl
  split at hres
  · rename_i h
    simp only [Bool.and_eq_true, Bool.not_eq_true', decide_eq_false_iff_not] at h
    exact absurd (ho (by rw [hr]; simp [h.1])) h.2
  · subst hres
    rw [Update_sync_calls]
    simp [mutatingCalls, Call.isMutating]

theorem Update_sync_state (api : Api) (calls : List Call) (diags : List Diagnostic)
    (data st : ServerResourceModel) (h : (Update_sync api calls diags data).State = some st) :
    st.Rescue = data.Rescue ∧ st.RescueOS = data.RescueOS ∧ st.Name = data.Name := by
  unfold Update_sync at h
  split at h
  · simp at h
  · simp only [Option.some.injEq] at h
    subst h
    exact ⟨rfl, rfl, rfl⟩

theorem Update_rescue_state (api : Api) (calls : List Call) (diags : List Diagnostic)
    (data state st : ServerResourceModel)
    (h : (Update_rescue api calls diags data state).State = some st) :
    rescueOn st.Rescue = rescueOn data.Rescue ∧
    (rescueOn data.Rescue = true → st.RescueOS = data.RescueOS) ∧
    st.Name = data.Name := by
  unfold Update_rescue at h
  simp only [] at h
  repeat' split at h
  all_goals first
    | (simp at h)
    | (obtain ⟨h1, h2, h3⟩ := Update_sync_state _ _ _ _ _ h
       simp_all [rescueOn, BoolValue, TfBool.IsNull, TfBool.ValueBool])

theorem Update_state (api : Api) (plan prior : TfData) (st : ServerResourceModel)
    (h : (Update api plan prior).State = some st) :
    rescueOn st.Rescue = rescueOn plan.model.Rescue ∧
    (rescueOn plan.model.Rescue = true → st.RescueOS = plan.model.RescueOS) := by
  unfold Update at h
  simp only [] at h
  repeat' split at h
  all_goals first
    | (simp at h)
    | (obtain ⟨h1, h2, _⟩ := Update_rescue_state _ _ _ _ _ _ h
       exact ⟨h1, h2⟩)

/-- C3, counterexample. (1) An Update that renames "old-name" to "web-1" on a
service that answers UpdateServer with the name "WEB-1" succeeds and saves the
name "WEB-1"; a second Update with the same plan and the saved state issues
UpdateServer again.  (2) A Create with rescue = true and rescue_os "linux64"
on a server not in rescue mode succeeds; an Update with the same plan and the
state saved by that Create issues EnableRescueMode again. -/
theorem C3_idempotence_counterexample :
    (HasError (Update (stubApi (sampleServer "old-name" "") (fun _ => "WEB-1"))
        ⟨[], sampleModel (.known "web-1") .null (.known false)⟩
        ⟨[], sampleModel (.known "old-name") .null (.known false)⟩).Diagnostics = false ∧
      (Update (stubApi (sampleServer "old-name" "") (fun _ => "WEB-1"))
        ⟨[], sampleModel (.known "web-1") .null (.known false)⟩
        ⟨[], sampleModel (.known "old-name") .null (.known false)⟩).State.map
        (fun st => mutatingCalls
          (Update (stubApi (sampleServer "WEB-1" "") (fun _ => "WEB-1"))
            ⟨[], sampleModel (.known "web-1") .null (.known false)⟩ ⟨[], st⟩).calls) =
        some [.UpdateServer "123" "web-1"]) ∧
    (HasError (Create (stubApi (sampleServer "web-1" "") id)
        ⟨[], sampleModel (.known "web-1") (.known "linux64") (.known true)⟩).Diagnostics
        = false ∧
      (Create (stubApi (sampleServer "web-1" "") id)
        ⟨[], sampleModel (.known "web-1") (.known "linux64") (.known true)⟩).State.map
        (fun st => mutatingCalls
          (Update (stubApi (sampleServer "web-1" "linux64") id)
            ⟨[], sampleModel (.known "web-1") (.known "linux64") (.known true)⟩
            ⟨[], st⟩).calls) =
        some [.EnableRescueMode "123" ⟨"linux64", []⟩]) := by
  refine ⟨⟨by decide, by decide⟩, by decide, by decide⟩

/-- The state a successful Create saves is `syncModel` of the plan and of the
server answered by GetServer or, when the name step ran, by UpdateServer. -/
theorem Create_state (api : Api) (plan : TfData) (st : ServerResourceModel)
    (h : (Create api plan).State = some st) :
    ∃ s, (api.GetServer [] plan.model.ID.ValueString = .ok s ∨
        api.UpdateServer [.GetServer plan.model.ID.ValueString] plan.model.ID.ValueString
          plan.model.Name.ValueString = .ok s) ∧
      st = syncModel plan.model s := by
  unfold Create Create_rescue at h
  simp only [] at h
  repeat' split at h
  all_goals
    cases h
    try
      refine ⟨_, ?_, rfl⟩
      first
        | (right; assumption)
        | (left; assumption)

/-- C3, amended. Update first: if an Update cycle succeeds (it saves a state)
and the name it reports is the planned name (no rename was needed, or
UpdateServer answered with the requested name), then an Update with the same
plan that takes the saved state as prior state issues no UpdateServer, no
EnableRescueMode and no DisableRescueMode, whatever the service answers.
Create first: the same holds for the state saved by a successful Create when
the reported name is the planned name, rescue is not requested and the server
answered by GetServer (and by UpdateServer, when the name step runs) has an
empty RescueOS. -/
theorem C3_idempotence_amended (api1 api2 : Api) (plan prior : TfData)
    (st : ServerResourceModel) (ds : List Diagnostic) :
    ((Update api1 plan prior).State = some st → st.Name = plan.model.Name →
      mutatingCalls (Update api2 plan ⟨ds, st⟩).calls = []) ∧
    ((Create api1 plan).State = some st → st.Name = plan.model.Name →
      rescueOn plan.model.Rescue = false →
      (∀ g, api1.GetServer [] plan.model.ID.ValueString = .ok g → g.RescueOS = "") →
      (∀ u, api1.UpdateServer [.GetServer plan.model.ID.ValueString]
          plan.model.ID.ValueString plan.model.Name.ValueString = .ok u →
        u.RescueOS = "") →
      mutatingCalls (Update api2 plan ⟨ds, st⟩).calls = []) := by
  constructor
  · intro hfirst hname
    obtain ⟨h1, h2⟩ := Update_state api1 plan prior st hfirst
    exact Update_no_change api2 plan ⟨ds, st⟩ hname.symm h1.symm (fun h => (h2 h).symm)
  · intro hfirst hname hreq hg hu
    obtain ⟨s, hs, hst⟩ := Create_state api1 plan st hfirst
    have hempty : s.RescueOS = "" := by
      rcases hs with hs | hs
      · exact hg s hs
      · exact hu s hs
    have hres : st.Rescue = .known false := by
      rw [hst]
      unfold syncModel
      simp [hempty, BoolValue]
    refine Update_no_change api2 plan ⟨ds, st⟩ hname.symm ?_ ?_
    · rw [hreq]
      show false = rescueOn st.Rescue
      rw [hres]
      rfl
    · intro h
      rw [hreq] at h
      cases h

/-- C3, amended, at two concrete cycles.  Update first: the first Update
renames the server and changes the rescue OS on a service that answers with
the requested name.  Create first: the adopt-and-rename scenario, plan id
"123", name "web-1", rescue false against a server named "old-name" that is
not in rescue mode.  In both, the Update that follows with the saved state
issues no mutating call. -/
theorem C3_idempotence_amended_witness :
    mutatingCalls (Update (stubApi (sampleServer "web-1" "freebsd64") id)
      ⟨[], sampleModel (.known "web-1") (.known "freebsd64") (.known true)⟩
      ⟨[], { ID := .known "123", Name := .known "web-1", ServerIP := .known "203.0.113.7",
             ServerIPv6 := .known "2001:db8::7", Product := .known "EX44",
             Datacenter := .known "FSN1-DC1", Status := .known "ready",
             RescueOS := .known "freebsd64", Rescue := .known true }⟩).calls = [] ∧
    mutatingCalls (Update (stubApi (sampleServer "web-1" "") id)
      ⟨[], sampleModel (.known "web-1") .null (.known false)⟩
      ⟨[], { ID := .known "123", Name := .known "web-1", ServerIP := .known "203.0.113.7",
             ServerIPv6 := .known "2001:db8::7", Product := .known "EX44",
             Datacenter := .known "FSN1-DC1", Status := .known "ready",
             RescueOS := .null, Rescue := .known false }⟩).calls = [] :=
  ⟨(C3_idempotence_amended (stubApi (sampleServer "old-name" "linux64") id)
      (stubApi (sampleServer "web-1" "freebsd64") id)
      ⟨[], sampleModel (.known "web-1") (.known "freebsd64") (.known true)⟩
      ⟨[], sampleModel (.known "old-name") (.known "linux64") (.known true)⟩
      { ID := .known "123", Name := .known "web-1", ServerIP := .known "203.0.113.7",
        ServerIPv6 := .known "2001:db8::7", Product := .known "EX44",
        Datacenter := .known "FSN1-DC1", Status := .known "ready",
        RescueOS := .known "freebsd64", Rescue := .known true }
      []).1 (by decide) rfl,
    (C3_idempotence_amended (stubApi (sampleServer "old-name" "") id)
      (stubApi (sampleServer "web-1" "") id)
      ⟨[], sampleModel (.known "web-1") .null (.known false)⟩
      ⟨[], sampleModel (.known "old-name") .null (.known false)⟩
      { ID := .known "123", Name := .known "web-1", ServerIP := .known "203.0.113.7",
        ServerIPv6 := .known "2001:db8::7", Product := .known "EX44",
        Datacenter := .known "FSN1-DC1", Status := .known "ready",
        RescueOS := .null, Rescue := .known false }
      []).2 (by decide) rfl rfl
      (fun g h => by
        have h2 : (Except.ok (sampleServer "old-name" "") : Except String Server) = .ok g := h
        cases h2; rfl)
      (fun u h => by
        have h2 : (Except.ok { sampleServer "old-name" "" with Name := "web-1" } :
            Except String Server) = .ok u := h
        cases h2; rfl)⟩

theorem Update_rescue_transition (api : Api) (calls : List Call) (diags : List Diagnostic)
    (data state : ServerResourceModel) (hok : api.Succeeds) :
    rescueCalls (Update_rescue api calls diags data state).calls =
      rescueCalls calls ++ rescueTransition data.ID.ValueString (rescueOn data.Rescue)
        (rescueOn state.Rescue) data.RescueOS state.RescueOS := by
  unfold Update_rescue
  simp only [fails_false_disable hok, fails_false_enable hok]
  cases hq : rescueOn data.Rescue <;> cases hc : rescueOn state.Rescue <;>
    simp only [rescueOn] at hq hc <;>
    simp only [hq, hc, rescueTransition, rescueCalls, TfString.Equal, ne_eq, not_true_eq_false,
      if_false, if_true, Bool.false_eq_true, Bool.true_eq_false, not_false_eq_true,
      Bool.false_and, Bool.true_and, Bool.not_eq_true', decide_eq_false_iff_not] <;>
    repeat' split
  all_goals simp_all [Call.isRescue, Update_sync_calls]

theorem Create_rescue_calls (api : Api) (calls : List Call) (diags : List Diagnostic)
    (data : ServerResourceModel) (server : Server) :
    rescueCalls (Create_rescue api calls diags data server).calls =
      rescueCalls calls ++
        (if rescueOn data.Rescue && !data.RescueOS.IsNull then
          [.EnableRescueMode data.ID.ValueString ⟨data.RescueOS.ValueString, []⟩]
        else []) := by
  unfold Create_rescue
  simp only [rescueOn]
  repeat' split
  all_goals simp_all [rescueCalls, Call.isRescue]

theorem Create_fetches_first (api : Api) (plan : TfData) (hplan : HasError plan.diags = false) :
    ∃ rest, (Create api plan).calls = .GetServer plan.model.ID.ValueString :: rest ∧
      (api.fails [] (.GetServer plan.model.ID.ValueString) = true →
        rest = [] ∧ HasError (Create api plan).Diagnostics = true ∧
          (Create api plan).State = none) := by
  generalize hr : Create api plan = r
  unfold Create Create_rescue at hr
  simp only [hplan, Bool.false_eq_true, if_false] at hr
  repeat' split at hr
  all_goals subst hr
  all_goals simp_all [Api.fails, Except.toBool, HasError_AddError]

theorem Create_rescue_decision (api : Api) (plan : TfData)
    (hplan : HasError plan.diags = false) (hok : api.Succeeds) :
    rescueCalls (Create api plan).calls =
      (if rescueOn plan.model.Rescue && !plan.model.RescueOS.IsNull then
        [.EnableRescueMode plan.model.ID.ValueString ⟨plan.model.RescueOS.ValueString, []⟩]
      else []) := by
  obtain ⟨g, hg⟩ := fails_false_getServer hok [] plan.model.ID.ValueString
  obtain ⟨u, hu⟩ := fails_false_updateServer hok [.GetServer plan.model.ID.ValueString]
    plan.model.ID.ValueString plan.model.Name.ValueString
  unfold Create
  simp only [hplan, Bool.false_eq_true, if_false, hg, hu]
  split <;> rw [Create_rescue_calls] <;> simp [rescueCalls, Call.isRescue]

theorem Update_rescue_decision (api : Api) (plan prior : TfData)
    (hplan : HasError plan.diags = false) (hprior : HasError prior.diags = false)
    (hok : api.Succeeds) :
    rescueCalls (Update api plan prior).calls =
      rescueTransition plan.model.ID.ValueString (rescueOn plan.model.Rescue)
        (rescueOn prior.model.Rescue) plan.model.RescueOS prior.model.RescueOS := by
  have hd : HasError (plan.diags ++ prior.diags) = false := by
    rw [HasError_append, hplan, hprior]; rfl
  obtain ⟨u, hu⟩ := fails_false_updateServer hok [] plan.model.ID.ValueString
    plan.model.Name.ValueString
  unfold Update
  simp only [hplan, hd, Bool.false_eq_true, if_false, hu]
  split <;> rw [Update_rescue_transition _ _ _ _ _ hok] <;> simp [rescueCalls, Call.isRescue]

/-- C7, counterexample. (1) An Update that renames the server issues
UpdateServer first and GetServer last.  (2) An Update whose prior state has
rescue enabled and whose plan has rescue = false issues DisableRescueMode
although the server the service reports has an empty RescueOS.  (3) A Create
with rescue = true and rescue_os "linux64" issues EnableRescueMode although
the fetched server already has RescueOS "linux64". -/
theorem C7_fetch_based_counterexample :
    ((Update (stubApi (sampleServer "old-name" "") id)
        ⟨[], sampleModel (.known "web-1") .null (.known false)⟩
        ⟨[], sampleModel (.known "old-name") .null (.known false)⟩).calls =
      [.UpdateServer "123" "web-1", .GetServer "123"]) ∧
    ((Update (stubApi (sampleServer "web-1" "") id)
        ⟨[], sampleModel (.known "web-1") .null (.known false)⟩
        ⟨[], sampleModel (.known "web-1") (.known "linux64") (.known true)⟩).calls =
      [.DisableRescueMode "123", .GetServer "123"]) ∧
    ((Create (stubApi (sampleServer "web-1" "linux64") id)
        ⟨[], sampleModel (.known "web-1") (.known "linux64") (.known true)⟩).calls =
      [.GetServer "123", .EnableRescueMode "123" ⟨"linux64", []⟩]) := by
  refine ⟨by decide, by decide, by decide⟩

/-- C7, amended. Create first fetches the server with GetServer(id) and, when
that fetch fails, issues nothing else, reports an error and saves no state.
Update issues GetServer only as its last call, and on a succeeding service
its rescue calls are those of the transition table with the current rescue
state and OS taken from the prior state (not from a fetched server). -/
theorem C7_fetch_based_amended (api : Api) (plan prior : TfData)
    (hplan : HasError plan.diags = false) (hprior : HasError prior.diags = false) :
    (∃ rest, (Create api plan).calls = .GetServer plan.model.ID.ValueString :: rest ∧
      (api.fails [] (.GetServer plan.model.ID.ValueString) = true →
        rest = [] ∧ HasError (Create api plan).Diagnostics = true ∧
          (Create api plan).State = none)) ∧
    (∀ (pre : List Call) (id : String) (post : List Call),
      (Update api plan prior).calls = pre ++ Call.GetServer id :: post → post = []) ∧
    (api.Succeeds →
      rescueCalls (Update api plan prior).calls =
        rescueTransition plan.model.ID.ValueString (rescueOn plan.model.Rescue)
          (rescueOn prior.model.Rescue) plan.model.RescueOS prior.model.RescueOS) :=
  ⟨Create_fetches_first api plan hplan,
    fun pre id post hs => getServer_is_last _ pre post id (Update_shape api plan prior).2.2 hs,
    Update_rescue_decision api plan prior hplan hprior⟩

/-- C7, amended, at a concrete cycle: the prior state has rescue enabled, the
plan has rescue = false and the service reports a server with an empty
RescueOS; Update issues DisableRescueMode, and a Create on that service starts
with GetServer. -/
theorem C7_fetch_based_amended_witness :
    (rescueCalls (Update (stubApi (sampleServer "web-1" "") id)
        ⟨[], sampleModel (.known "web-1") .null (.known false)⟩
        ⟨[], sampleModel (.known "web-1") (.known "linux64") (.known true)⟩).calls =
      [.DisableRescueMode "123"]) ∧
    (∃ rest, (Create (stubApi (sampleServer "web-1" "") id)
        ⟨[], sampleModel (.known "web-1") .null (.known false)⟩).calls =
      .GetServer "123" :: rest) :=
  ⟨(C7_fetch_based_amended (stubApi (sampleServer "web-1" "") id)
      ⟨[], sampleModel (.known "web-1") .null (.known false)⟩
      ⟨[], sampleModel (.known "web-1") (.known "linux64") (.known true)⟩ rfl rfl).2.2
      (stubApi_succeeds _ _),
    (C7_fetch_based_amended (stubApi (sampleServer "web-1" "") id)
      ⟨[], sampleModel (.known "web-1") .null (.known false)⟩
      ⟨[], sampleModel (.known "web-1") (.known "linux64") (.known true)⟩ rfl rfl).1.imp
      (fun _ h => h.1)⟩

theorem Update_sync_saves (api : Api) (calls : List Call) (diags : List Diagnostic)
    (data : ServerResourceModel) (hok : api.Succeeds) :
    ∃ st, (Update_sync api calls diags data).State = some st := by
  obtain ⟨g, hg⟩ := fails_false_getServer hok calls data.ID.ValueString
  unfold Update_sync
  simp [hg]

theorem Update_rescue_saves (api : Api) (calls : List Call) (diags : List Diagnostic)
    (data state : ServerResourceModel) (hok : api.Succeeds)
    (hguard : ¬ (rescueOn data.Rescue = true ∧ rescueOn state.Rescue = false ∧
      data.RescueOS = .null)) :
    ∃ st, (Update_rescue api calls diags data state).State = some st := by
  unfold Update_rescue
  simp only [fails_false_disable hok, fails_false_enable hok]
  simp only [rescueOn] at hguard
  repeat' split
  all_goals first
    | exact Update_sync_saves _ _ _ _ hok
    | (exfalso
       apply hguard
       cases hos : data.RescueOS <;> simp_all [TfString.IsNull])

theorem Update_rescue_updateCalls (api : Api) (calls : List Call) (diags : List Diagnostic)
    (data state : ServerResourceModel) :
    updateCalls (Update_rescue api calls diags data state).calls = updateCalls calls := by
  unfold Update_rescue Update_sync
  simp only []
  repeat' split
  all_goals simp [updateCalls, Call.isUpdateServer]

theorem Create_rescue_updateCalls (api : Api) (calls : List Call) (diags : List Diagnostic)
    (data : ServerResourceModel) (server : Server) :
    updateCalls (Create_rescue api calls diags data server).calls = updateCalls calls := by
  unfold Create_rescue
  repeat' split
  all_goals simp [updateCalls, Call.isUpdateServer]

theorem Create_rescue_name (api : Api) (calls : List Call) (diags : List Diagnostic)
    (data : ServerResourceModel) (server : Server) (hok : api.Succeeds) :
    (Create_rescue api calls diags data server).State.map (fun m => m.Name) =
      some (.known server.Name) := by
  unfold Create_rescue syncModel
  simp only [fails_false_enable hok]
  repeat' split
  all_goals simp [StringValue]

/-- C8, counterexample, with the current name and rescue state read from the
server the service reports.  (1) Plan and prior state both carry the name
"web-1" while the server is named "old-name": Update issues only GetServer, no
UpdateServer, and saves the name "web-1".  (2) The plan carries "web-1", the
prior state "old-name", and the server is already named "web-1": Update still
issues UpdateServer.  (3) Rescue is not requested and the server has an empty
RescueOS, but the prior state has rescue enabled: Update issues
DisableRescueMode. -/
theorem C8_name_step_counterexample :
    ((Update (stubApi (sampleServer "old-name" "") id)
        ⟨[], sampleModel (.known "web-1") .null (.known false)⟩
        ⟨[], sampleModel (.known "web-1") .null (.known false)⟩).calls =
        [.GetServer "123"] ∧
      (Update (stubApi (sampleServer "old-name" "") id)
        ⟨[], sampleModel (.known "web-1") .null (.known false)⟩
        ⟨[], sampleModel (.known "web-1") .null (.known false)⟩).State.map
        (fun m => m.Name) = some (.known "web-1")) ∧
    ((Update (stubApi (sampleServer "web-1" "") id)
        ⟨[], sampleModel (.known "web-1") .null (.known false)⟩
        ⟨[], sampleModel (.known "old-name") .null (.known false)⟩).calls =
      [.UpdateServer "123" "web-1", .GetServer "123"]) ∧
    ((Update (stubApi (sampleServer "web-1" "") id)
        ⟨[], sampleModel (.known "web-1") .null (.known false)⟩
        ⟨[], sampleModel (.known "web-1") (.known "linux64") (.known true)⟩).calls =
      [.DisableRescueMode "123", .GetServer "123"]) := by
  refine ⟨⟨by decide, by decide⟩, by decide, by decide⟩

/-- C8, amended. Name step, on a service whose calls all succeed.  Create
compares the planned name with the name of the fetched server, Update with the
name of the prior state.  When they differ, exactly one UpdateServer(id,
planned name) is issued and every state the cycle saves carries the name in
that call's answer; Create always saves a state, Update saves one unless the
missing rescue_os guard stops it (rescue requested, not enabled in the prior
state, rescue_os null).  When they are equal, no UpdateServer is issued.  With
rescue not requested, Create issues no rescue call; with rescue neither
requested nor enabled in the prior state, Update issues no rescue call. -/
theorem C8_name_step_amended (api : Api) (plan prior : TfData)
    (hplan : HasError plan.diags = false) (hprior : HasError prior.diags = false)
    (hok : api.Succeeds) :
    (∃ g, api.GetServer [] plan.model.ID.ValueString = .ok g ∧
      (plan.model.Name.ValueString ≠ g.Name →
        ∃ u, api.UpdateServer [.GetServer plan.model.ID.ValueString]
            plan.model.ID.ValueString plan.model.Name.ValueString = .ok u ∧
          updateCalls (Create api plan).calls =
            [.UpdateServer plan.model.ID.ValueString plan.model.Name.ValueString] ∧
          (Create api plan).State.map (fun m => m.Name) = some (.known u.Name)) ∧
      (plan.model.Name.ValueString = g.Name → updateCalls (Create api plan).calls = [])) ∧
    (rescueOn plan.model.Rescue = false → rescueCalls (Create api plan).calls = []) ∧
    (plan.model.Name ≠ prior.model.Name →
      ∃ u, api.UpdateServer [] plan.model.ID.ValueString plan.model.Name.ValueString = .ok u ∧
        updateCalls (Update api plan prior).calls =
          [.UpdateServer plan.model.ID.ValueString plan.model.Name.ValueString] ∧
        (∀ st, (Update api plan prior).State = some st → st.Name = .known u.Name) ∧
        (¬ (rescueOn plan.model.Rescue = true ∧ rescueOn prior.model.Rescue = false ∧
            plan.model.RescueOS = .null) →
          (Update api plan prior).State.map (fun m => m.Name) = some (.known u.Name))) ∧
    (plan.model.Name = prior.model.Name → updateCalls (Update api plan prior).calls = []) ∧
    (rescueOn plan.model.Rescue = false → rescueOn prior.model.Rescue = false →
      rescueCalls (Update api plan prior).calls = []) := by
  have hd : HasError (plan.diags ++ prior.diags) = false := by
    rw [HasError_append, hplan, hprior]; rfl
  refine ⟨?_, ?_, ?_, ?_, ?_⟩
  · obtain ⟨g, hg⟩ := fails_false_getServer hok [] plan.model.ID.ValueString
    refine ⟨g, hg, ?_, ?_⟩
    · intro hne
      obtain ⟨u, hu⟩ := fails_false_updateServer hok [.GetServer plan.model.ID.ValueString]
        plan.model.ID.ValueString plan.model.Name.ValueString
      refine ⟨u, hu, ?_, ?_⟩
      · unfold Create
        simp only [hplan, Bool.false_eq_true, if_false, hg, hu, hne, ne_eq, not_false_eq_true,
          if_true]
        rw [Create_rescue_updateCalls]
        simp [updateCalls, Call.isUpdateServer]
      · unfold Create
        simp only [hplan, Bool.false_eq_true, if_false, hg, hu, hne, ne_eq, not_false_eq_true,
          if_true]
        exact Create_rescue_name _ _ _ _ _ hok
    · intro heq
      unfold Create
      simp only [hplan, Bool.false_eq_true, if_false, hg, heq, ne_eq, not_true_eq_false]
      rw [Create_rescue_updateCalls]
      simp [updateCalls, Call.isUpdateServer]
  · intro hreq
    rw [Create_rescue_decision api plan hplan hok, hreq]
    simp
  · intro hne
    obtain ⟨u, hu⟩ := fails_false_updateServer hok [] plan.model.ID.ValueString
      plan.model.Name.ValueString
    have hU : Update api plan prior =
        Update_rescue api [.UpdateServer plan.model.ID.ValueString plan.model.Name.ValueString]
          (plan.diags ++ prior.diags) { plan.model with Name := StringValue u.Name }
          prior.model := by
      unfold Update
      simp [hplan, hd, hu, hne, TfString.Equal]
    refine ⟨u, hu, ?_, ?_, ?_⟩
    · rw [hU, Update_rescue_updateCalls]
      simp [updateCalls, Call.isUpdateServer]
    · intro st hst
      rw [hU] at hst
      exact (Update_rescue_state _ _ _ _ _ _ hst).2.2
    · intro hguard
      obtain ⟨st, hst⟩ := Update_rescue_saves api
        [.UpdateServer plan.model.ID.ValueString plan.model.Name.ValueString]
        (plan.diags ++ prior.diags) { plan.model with Name := StringValue u.Name }
        prior.model hok hguard
      rw [hU, hst]
      simp only [Option.map_some']
      rw [(Update_rescue_state _ _ _ _ _ _ hst).2.2]
      rfl
  · intro heq
    have hU : Update api plan prior =
        Update_rescue api [] (plan.diags ++ prior.diags) plan.model prior.model := by
      unfold Update
      simp [hplan, hd, heq, TfString.Equal]
    rw [hU, Update_rescue_updateCalls]
    rfl
  · intro hreq hcur
    rw [Update_rescue_decision api plan prior hplan hprior hok, hreq, hcur]
    rfl

/-- C8, amended, at the scenario: desired id "123", name "web-1", rescue false against
the current name "old-name" with no rescue OS, on a service that answers
UpdateServer with the name "web-1": Create and Update each issue exactly one
UpdateServer("123", "web-1"), no rescue call, and save the name "web-1". -/
theorem C8_name_step_amended_witness :
    (updateCalls (Create (stubApi (sampleServer "old-name" "") id)
        ⟨[], sampleModel (.known "web-1") .null (.known false)⟩).calls =
        [.UpdateServer "123" "web-1"] ∧
      (Create (stubApi (sampleServer "old-name" "") id)
        ⟨[], sampleModel (.known "web-1") .null (.known false)⟩).State.map
        (fun m => m.Name) = some (.known "web-1") ∧
      rescueCalls (Create (stubApi (sampleServer "old-name" "") id)
        ⟨[], sampleModel (.known "web-1") .null (.known false)⟩).calls = []) ∧
    (updateCalls (Update (stubApi (sampleServer "old-name" "") id)
        ⟨[], sampleModel (.known "web-1") .null (.known false)⟩
        ⟨[], sampleModel (.known "old-name") .null (.known false)⟩).calls =
        [.UpdateServer "123" "web-1"] ∧
      (Update (stubApi (sampleServer "old-name" "") id)
        ⟨[], sampleModel (.known "web-1") .null (.known false)⟩
        ⟨[], sampleModel (.known "old-name") .null (.known false)⟩).State.map
        (fun m => m.Name) = some (.known "web-1") ∧
      rescueCalls (Update (stubApi (sampleServer "old-name" "") id)
        ⟨[], sampleModel (.known "web-1") .null (.known false)⟩
        ⟨[], sampleModel (.known "old-name") .null (.known false)⟩).calls = []) := by
  obtain ⟨⟨g, hg, hc1, _⟩, hc2, hu1, _, hu2⟩ :=
    C8_name_step_amended (stubApi (sampleServer "old-name" "") id)
      ⟨[], sampleModel (.known "web-1") .null (.known false)⟩
      ⟨[], sampleModel (.known "old-name") .null (.known false)⟩ rfl rfl
      (stubApi_succeeds _ _)
  have hg2 : g = sampleServer "old-name" "" := by
    have : (Except.ok (sampleServer "old-name" "") : Except String Server) = .ok g := hg
    cases this; rfl
  subst hg2
  obtain ⟨u, hu, h1, h2⟩ := hc1 (by decide)
  have hu2b : u = { sampleServer "old-name" "" with Name := "web-1" } := by
    have : (Except.ok { sampleServer "old-name" "" with Name := "web-1" } :
        Except String Server) = .ok u := hu
    cases this; rfl
  subst hu2b
  obtain ⟨v, hv, h3, _, h4⟩ := hu1 (by decide)
  have hv2 : v = { sampleServer "old-name" "" with Name := "web-1" } := by
    have : (Except.ok { sampleServer "old-name" "" with Name := "web-1" } :
        Except String Server) = .ok v := hv
    cases this; rfl
  subst hv2
  exact ⟨⟨h1, h2, hc2 rfl⟩, h3, h4 (by decide), hu2 rfl rfl⟩

end HetznerRobot
